import Mathlib

/-!
# Verification of the clinic appointment service

A shallow embedding of the appointment/demand/reminder logic of the Express
server (`src/unnamed/part_003`) together with proofs about its behaviour.

Modelling conventions:
* JavaScript numbers holding money-free quantities are modelled as `ℚ`
  (thresholds, attendance rates) or as `Nat`/`Int` where the code only ever
  stores integers (counters, epoch milliseconds).
* `Date` values are modelled by a record carrying the epoch-millisecond
  instant together with the components the code reads through `getFullYear`,
  `getMonth` (0-indexed, as in JS), `getDay` and `getHours`.
* Mongo collections are lists of documents; `findOne` is `List.find?`,
  `updateMany` is a guarded `List.map`, and a single-document update
  (`findOneAndUpdate`, `save`) updates the first match.
* Fallible code (a JS `TypeError`) is modelled with `Option`.
* The `lastUpdated` timestamp of demand cells is dropped: no statement below
  depends on it.
-/

namespace AppointmentSystem

/-- Appointment lifecycle states from the appointment schema. -/
inductive AppointmentStatus
  | available
  | booked
  | attended
  | missed
deriving DecidableEq, Repr

/-- Reminder row states from the appointment schema. -/
inductive ReminderStatus
  | scheduled
  | sent
deriving DecidableEq, Repr

/-- The `source` field of a demand cell. -/
inductive CellSource
  | admin
  | auto
deriving DecidableEq, Repr

/-- A JS `Date`: the absolute instant plus the components the server reads.
`getMonth` is 0-indexed exactly as in JavaScript. -/
structure DateTime where
  epochMs : Int
  getFullYear : Int
  getMonth : Int
  getDay : Int
  getHours : Int
deriving DecidableEq, Repr

/-- User document (user schema of the server). -/
structure User where
  userName : String
  displayName : Option String
  phone : Option String
  telegramChatId : Option String
  score : Int
  attendedCount : Nat
  missedCount : Nat
  attendanceRate : ℚ
  category : String
deriving DecidableEq, Repr

/-- An embedded reminder row of an appointment. -/
structure Reminder where
  messageType : String
  sendTime : Int
  status : ReminderStatus
deriving DecidableEq, Repr

/-- Appointment document (appointment schema of the server). -/
structure Appointment where
  id : Nat
  doctorName : String
  date : DateTime
  status : AppointmentStatus
  userName : Option String
  reminders : List Reminder
deriving DecidableEq, Repr

/-- Demand cell document (`HighDemand` schema); `dayOfWeek = none` models the
`null` day-of-week of an admin baseline row.  `totalAppointments` only ever
receives non-negative integer increments, so it is a `Nat`. -/
structure HighDemandCell where
  doctorName : String
  year : Int
  month : Int
  dayOfWeek : Option Int
  hour : Int
  totalAppointments : Nat
  highDemandThreshold : ℚ
  source : CellSource
deriving DecidableEq, Repr

/-- Nudge message document (message schema). -/
structure Message where
  category : String
  text : String
deriving DecidableEq, Repr

/-- The four Mongo collections the verified endpoints touch. -/
structure SystemState where
  users : List User
  appointments : List Appointment
  demand : List HighDemandCell
  messages : List Message
deriving DecidableEq, Repr

/-- Update the first list element satisfying `p` (a single-document Mongo
update such as `findOneAndUpdate` or `doc.save()`). -/
def updateFirst (p : α → Bool) (f : α → α) : List α → List α
  | [] => []
  | x :: xs => if p x then f x :: xs else x :: updateFirst p f xs

/-- The reward/counter deltas of `updateAppointmentStatus` (`attended` gives
`+10` score and a visit, `missed` costs 5 score clamped at 0 and adds a
no-show; any other status changes nothing). -/
def applyDeltas (user : User) (status : AppointmentStatus) : User :=
  if status = .attended then
    { user with score := user.score + 10, attendedCount := user.attendedCount + 1 }
  else if status = .missed then
    { user with score := max 0 (user.score - 5), missedCount := user.missedCount + 1 }
  else user

/-- The attendance-rate refresh and behaviour reclassification of
`updateAppointmentStatus` (reclassify only once `total ≥ 3`). -/
def reclassify (user : User) : User :=
  let total := user.attendedCount + user.missedCount
  let rate : ℚ := if 0 < total then ((user.attendedCount : ℚ) / (total : ℚ)) * 100 else 0
  let user2 := { user with attendanceRate := rate }
  if 3 ≤ total then
    if 80 ≤ rate then { user2 with category := "Very Good" }
    else if 60 ≤ rate then { user2 with category := "Good" }
    else { user2 with category := "At-Risk" }
  else user2

/-- The complete user-statistics update performed by
`updateAppointmentStatus`. -/
def applyAttendance (user : User) (status : AppointmentStatus) : User :=
  reclassify (applyDeltas user status)

/-- Key match used by the `HighDemand.findOne` queries. -/
def matchesKey (c : HighDemandCell) (doctor : String) (y m : Int) (dow : Option Int)
    (h : Int) : Bool :=
  c.doctorName == doctor && c.year == y && c.month == m && c.dayOfWeek == dow && c.hour == h

/-- Membership of a cell in a doctor's month (the
`{ doctorName, year, month }` filter). -/
def inMonth (c : HighDemandCell) (doctor : String) (y m : Int) : Bool :=
  c.doctorName == doctor && c.year == y && c.month == m

/-- Function `initializeMonthIfNeeded`: lazily seed a doctor's month from the previous
year's same-month cells (totals reset to 0, thresholds kept, source `auto`). -/
def initializeMonthIfNeeded (db : List HighDemandCell) (doctorName : String)
    (date : DateTime) : List HighDemandCell :=
  let year := date.getFullYear
  let month := date.getMonth + 1
  if db.any (fun c => inMonth c doctorName year month) then db
  else
    let lastYear := db.filter (fun c => inMonth c doctorName (year - 1) month)
    db ++ lastYear.map (fun r =>
      { doctorName := doctorName, year := year, month := month, dayOfWeek := r.dayOfWeek,
        hour := r.hour, totalAppointments := 0,
        highDemandThreshold := r.highDemandThreshold, source := .auto })

/-- Function `updateHighDemandStats`: increment the cell of an attended appointment's
slot, creating it (total 1, default threshold 3, source `auto`) if absent. -/
def updateHighDemandStats (db : List HighDemandCell) (a : Appointment) :
    List HighDemandCell :=
  let year := a.date.getFullYear
  let month := a.date.getMonth + 1
  let dayOfWeek := a.date.getDay
  let hour := a.date.getHours
  let db1 := initializeMonthIfNeeded db a.doctorName a.date
  if db1.any (fun c => matchesKey c a.doctorName year month (some dayOfWeek) hour) then
    updateFirst (fun c => matchesKey c a.doctorName year month (some dayOfWeek) hour)
      (fun c => { c with totalAppointments := c.totalAppointments + 1 }) db1
  else
    db1 ++ [{ doctorName := a.doctorName, year := year, month := month,
              dayOfWeek := some dayOfWeek, hour := hour, totalAppointments := 1,
              highDemandThreshold := 3, source := .auto }]

/-- Function `getEffectiveHighDemand`: the `||`-chain of the four `findOne` queries of
the source (current year by day-of-week and hour, previous year ditto, then
the admin baselines of the current and previous year). -/
def getEffectiveHighDemand (db : List HighDemandCell) (doctorName : String)
    (date : DateTime) : Option HighDemandCell :=
  let year := date.getFullYear
  let month := date.getMonth + 1
  let dayOfWeek := date.getDay
  let hour := date.getHours
  (db.find? (fun c => matchesKey c doctorName year month (some dayOfWeek) hour)) <|>
  (db.find? (fun c => matchesKey c doctorName (year - 1) month (some dayOfWeek) hour)) <|>
  (db.find? (fun c =>
    matchesKey c doctorName year month none hour && c.source == CellSource.admin)) <|>
  (db.find? (fun c =>
    matchesKey c doctorName (year - 1) month none hour && c.source == CellSource.admin))

/-- The high-demand test the booking route applies to the result of
`getEffectiveHighDemand` (`admin` source, or total at/above threshold). -/
def isHighDemandSlot (slot : Option HighDemandCell) : Bool :=
  match slot with
  | none => false
  | some s => s.source == CellSource.admin ||
      s.highDemandThreshold ≤ (s.totalAppointments : ℚ)

/-- Function `recalculateDynamicThreshold`: per-month adaptive threshold.  `1.1` and
`1.2` are the exact rationals `11/10` and `6/5`; `Math.floor(n * 0.25)` is
exact natural division by 4; the JS `|| threshold` fallback fires when the
rank cell is absent or its (falsy) total is `0`. -/
def recalculateDynamicThreshold (db : List HighDemandCell) (doctorName : String)
    (year month : Int) : List HighDemandCell :=
  let hours := db.filter (fun c => inMonth c doctorName year month)
  if hours.length = 0 then db
  else if hours.length < 3 then
    let avg : ℚ := (hours.map (fun h => (h.totalAppointments : ℚ))).sum / hours.length
    let threshold := avg * (11 / 10)
    db.map (fun c =>
      if inMonth c doctorName year month then { c with highDemandThreshold := threshold }
      else c)
  else
    let avg : ℚ := (hours.map (fun h => (h.totalAppointments : ℚ))).sum / hours.length
    let threshold := avg * (6 / 5)
    let sorted := hours.insertionSort
      (fun a b => b.totalAppointments ≤ a.totalAppointments)
    let top25Index := hours.length / 4
    let top25Cutoff : ℚ :=
      match sorted.get? top25Index with
      | some c => if c.totalAppointments = 0 then threshold else (c.totalAppointments : ℚ)
      | none => threshold
    let newThreshold := max threshold top25Cutoff
    db.map (fun c =>
      if inMonth c doctorName year month then { c with highDemandThreshold := newThreshold }
      else c)

/-- The value `Number.MAX_SAFE_INTEGER`, the code's finite stand-in for "never high". -/
def maxSafeInteger : ℚ := 9007199254740991

/-- Function `limitHighDemandHours`: keep the top `⌊n·0.5⌋` busiest cells of the month;
every other cell's threshold becomes `Number.MAX_SAFE_INTEGER`.  Membership in
the top set is tested by `(hour, dayOfWeek)` as in the source. -/
def limitHighDemandHours (db : List HighDemandCell) (doctorName : String)
    (year month : Int) : List HighDemandCell :=
  let hours := db.filter (fun c => inMonth c doctorName year month)
  if hours.length = 0 then db
  else
    let maxHigh := hours.length / 2
    let sorted := hours.insertionSort
      (fun a b => b.totalAppointments ≤ a.totalAppointments)
    let top := sorted.take maxHigh
    db.map (fun c =>
      if inMonth c doctorName year month then
        if top.any (fun t => t.hour == c.hour && t.dayOfWeek == c.dayOfWeek) then c
        else { c with highDemandThreshold := maxSafeInteger }
      else c)

/-- Body of the `0 2 1 * *` cron job: for every distinct doctor run the
threshold recalculation and the peak cap on
`(now.getFullYear(), now.getMonth())` — the zero-indexed current month, which
the source comments as the "previous month index". -/
def monthlyRecalcJob (db : List HighDemandCell) (now : DateTime) :
    List HighDemandCell :=
  let doctors := (db.map (fun c => c.doctorName)).dedup
  let year := now.getFullYear
  let prevMonth := now.getMonth
  doctors.foldl (fun acc doctor =>
    limitHighDemandHours (recalculateDynamicThreshold acc doctor year prevMonth)
      doctor year prevMonth) db

/-- One iteration of the late-release loop of the hourly cron job: look up the
effective cell of an available appointment and, when its total is at/above its
threshold, save it back with threshold `Number.MAX_SAFE_INTEGER`.  The
`source = admin` disjunct of the high-demand definition is NOT consulted. -/
def lateReleaseStep (db : List HighDemandCell) (a : Appointment) :
    List HighDemandCell :=
  match getEffectiveHighDemand db a.doctorName a.date with
  | none => db
  | some demand =>
    if demand.highDemandThreshold ≤ (demand.totalAppointments : ℚ) then
      updateFirst
        (fun c => matchesKey c demand.doctorName demand.year demand.month
          demand.dayOfWeek demand.hour)
        (fun c => { c with highDemandThreshold := maxSafeInteger }) db
    else db

/-- Body of the `0 * * * *` cron job: delete expired available appointments,
then run the late-release step over every available appointment starting
within the next two hours. -/
def hourlyMaintenanceJob (st : SystemState) (now : Int) : SystemState :=
  let appointments := st.appointments.filter (fun a =>
    !(a.date.epochMs < now && a.status == .available))
  let twoHoursLater := now + 2 * 60 * 60 * 1000
  let soon := appointments.filter (fun a =>
    a.status == .available && now ≤ a.date.epochMs && a.date.epochMs ≤ twoHoursLater)
  { st with appointments := appointments, demand := soon.foldl lateReleaseStep st.demand }

/-- Function `pickUniqueMessage`: choose (pseudo-randomly, modelled by reducing `rand`
modulo the pool size) an entry whose text is not yet in `usedMessages`.  When
every text is used the filtered pool is empty, the JS indexes `undefined` and
`chosen.text` throws a `TypeError`: that crash is `none`. -/
def pickUniqueMessage (messages : List Message) (usedMessages : List String)
    (rand : Nat) : Option (Message × List String) :=
  let available := messages.filter (fun m => !usedMessages.contains m.text)
  match available.get? (rand % available.length) with
  | none => none
  | some chosen => some (chosen, usedMessages ++ [chosen.text])

/-- Function `updateAppointmentStatus`: unconditionally overwrite the appointment's
status, then load the booking user by exact name, apply the score/counter
update and reclassification, and on `attended` feed the demand engine.
Returns the new state plus (as the route's `result`) the updated appointment
and user, or `none` when either lookup fails. -/
def updateAppointmentStatus (st : SystemState) (appointmentId : Nat)
    (status : AppointmentStatus) : SystemState × Option (Appointment × User) :=
  match st.appointments.find? (fun a => a.id == appointmentId) with
  | none => (st, none)
  | some appointment =>
    let appointment1 := { appointment with status := status }
    let appointments1 := updateFirst (fun a => a.id == appointmentId)
      (fun a => { a with status := status }) st.appointments
    let st1 := { st with appointments := appointments1 }
    match appointment1.userName.bind (fun n => st.users.find? (fun u => u.userName == n)) with
    | none => (st1, none)
    | some user =>
      let user1 := applyAttendance user status
      let users1 := updateFirst (fun u => u.userName == user.userName)
        (fun _ => user1) st.users
      let demand1 :=
        if status = .attended then
          updateHighDemandStats
            (initializeMonthIfNeeded st.demand appointment.doctorName appointment.date)
            appointment1
        else st.demand
      ({ st1 with users := users1, demand := demand1 }, some (appointment1, user1))

/-- Message category chosen by the booking route from the user's class
(`re-engagement` is the catch-all `else` branch). -/
def messageTypeFor (category : String) : String :=
  if category = "Very Good" then "positive nudge"
  else if category = "Good" then "default nudge"
  else "re-engagement"

/-- Reminder lead hours chosen by the booking route from the user's class
(`[24, 2]` is the default for anything that is neither `Very Good` nor
`At-Risk`). -/
def reminderHoursFor (category : String) : List Int :=
  if category = "Very Good" then [24]
  else if category = "At-Risk" then [48, 6, 1]
  else [24, 2]

/-- One iteration of the reminder loop of the booking route, threading
`(reminders, instantReminder, deliveries)`.  A past lead is recorded as a
`sent` row at `now`; the first past lead with a non-empty pool additionally
attempts one Telegram delivery.  A future lead is recorded as `scheduled` at
its own send time (the cron job it registers runs after the request). -/
def bookReminderStep (poolNonempty : Bool) (messageType : String)
    (appointmentTime now : Int) (acc : List Reminder × Bool × Nat) (h : Int) :
    List Reminder × Bool × Nat :=
  let reminderTime := appointmentTime - h * 60 * 60 * 1000
  if reminderTime ≤ now then
    let reminders := acc.1 ++ [{ messageType := messageType, sendTime := now, status := .sent }]
    if acc.2.1 then (reminders, acc.2.1, acc.2.2)
    else if poolNonempty then (reminders, true, acc.2.2 + 1)
    else (reminders, acc.2.1, acc.2.2)
  else
    (acc.1 ++ [{ messageType := messageType, sendTime := reminderTime, status := .scheduled }],
      acc.2.1, acc.2.2)

/-- The reminder rows persisted on the appointment and the number of
synchronous Telegram delivery attempts made by the booking route. -/
def planReminders (poolNonempty : Bool) (messageType : String)
    (appointmentTime now : Int) (hours : List Int) : List Reminder × Nat :=
  let res := hours.foldl (bookReminderStep poolNonempty messageType appointmentTime now)
    ([], false, 0)
  (res.1, res.2.2)

/-- Outcome of `POST /appointments/book/:id`. -/
inductive BookOutcome
  | appointmentNotFound
  | slotNotAvailable
  | userNotRegistered
  | admissionDenied (doctorName : String)
  | booked (appointment : Appointment) (deliveries : Nat)
deriving DecidableEq, Repr

/-- The `POST /appointments/book/:id` route: find the slot, find the user
case-insensitively, optionally store the phone, initialize the doctor's
month, deny an `At-Risk` user a high-demand slot with HTTP 403, otherwise
mark the slot booked, build and persist its reminder rows and perform at
most one instant catch-up delivery. -/
def bookAppointment (st : SystemState) (appointmentId : Nat) (userName : String)
    (phone : Option String) (now : Int) : SystemState × BookOutcome :=
  match st.appointments.find? (fun a => a.id == appointmentId) with
  | none => (st, .appointmentNotFound)
  | some appointment =>
    if appointment.status ≠ .available then (st, .slotNotAvailable)
    else
      match st.users.find? (fun u => u.userName.toLower == userName.toLower) with
      | none => (st, .userNotRegistered)
      | some user =>
        let users1 :=
          match phone, user.phone with
          | some p, none =>
            updateFirst (fun u => u.userName == user.userName)
              (fun u => { u with phone := some p }) st.users
          | _, _ => st.users
        let demand1 := initializeMonthIfNeeded st.demand appointment.doctorName appointment.date
        let demandSlot := getEffectiveHighDemand demand1 appointment.doctorName appointment.date
        let st1 := { st with users := users1, demand := demand1 }
        if user.category = "At-Risk" && isHighDemandSlot demandSlot then
          (st1, .admissionDenied appointment.doctorName)
        else
          let messageType := messageTypeFor user.category
          let reminderHours := reminderHoursFor user.category
          let poolNonempty := !(st.messages.filter (fun m => m.category == messageType)).isEmpty
          let plan := planReminders poolNonempty messageType appointment.date.epochMs now
            reminderHours
          let appointment1 := { appointment with
            status := .booked, userName := some userName, reminders := plan.1 }
          let appointments1 := updateFirst (fun a => a.id == appointmentId)
            (fun _ => appointment1) st.appointments
          ({ st1 with appointments := appointments1 }, .booked appointment1 plan.2)

/-- The `POST /appointments/status/:id` route: run `updateAppointmentStatus`
and map a `null` result to HTTP 404, a value to HTTP 200. -/
def postAppointmentStatus (st : SystemState) (appointmentId : Nat)
    (status : AppointmentStatus) : SystemState × Nat :=
  let (st1, result) := updateAppointmentStatus st appointmentId status
  match result with
  | none => (st1, 404)
  | some _ => (st1, 200)

/-! ## Claim-side definitions (worded after the specification, for comparison
with the source-derived functions above) -/

/-- First non-`none` entry of a list of lookups, in order. -/
def firstNonNull : List (Option α) → Option α
  | [] => none
  | o :: os =>
    match o with
    | some a => some a
    | none => firstNonNull os

/-- Lookup 1 of the effective-demand precedence: current-year
`(dayOfWeek, hour)` cell. -/
def currentYearCell (db : List HighDemandCell) (doctorName : String)
    (date : DateTime) : Option HighDemandCell :=
  db.find? (fun c => matchesKey c doctorName date.getFullYear (date.getMonth + 1)
    (some date.getDay) date.getHours)

/-- Lookup 2: previous-year `(dayOfWeek, hour)` cell. -/
def previousYearCell (db : List HighDemandCell) (doctorName : String)
    (date : DateTime) : Option HighDemandCell :=
  db.find? (fun c => matchesKey c doctorName (date.getFullYear - 1) (date.getMonth + 1)
    (some date.getDay) date.getHours)

/-- Lookup 3: current-year admin baseline cell (`dayOfWeek = ⊥`, same hour). -/
def currentYearAdminBaseline (db : List HighDemandCell) (doctorName : String)
    (date : DateTime) : Option HighDemandCell :=
  db.find? (fun c => matchesKey c doctorName date.getFullYear (date.getMonth + 1)
    none date.getHours && c.source == CellSource.admin)

/-- Lookup 4: previous-year admin baseline cell. -/
def previousYearAdminBaseline (db : List HighDemandCell) (doctorName : String)
    (date : DateTime) : Option HighDemandCell :=
  db.find? (fun c => matchesKey c doctorName (date.getFullYear - 1) (date.getMonth + 1)
    none date.getHours && c.source == CellSource.admin)

/-- The per-month threshold demanded by the claim for a non-empty multiset of
cell totals: below three cells, `mean·1.1`; otherwise the larger of `mean·1.2`
and the total at rank `⌊n·0.25⌋` of the descending order. -/
def adaptiveThreshold (totals : List Nat) : ℚ :=
  let avg : ℚ := (totals.map (fun t => (Nat.cast t : ℚ))).sum / totals.length
  if totals.length < 3 then avg * (11 / 10)
  else
    let sorted := totals.insertionSort (fun a b => b ≤ a)
    max (avg * (6 / 5)) (((sorted.get? (totals.length / 4)).getD 0 : ℚ))

/-- The just-ended calendar month demanded by the claim: 1–12 numbering, year
adjusted across a year boundary. -/
def justEndedMonth (now : DateTime) : Int × Int :=
  if now.getMonth + 1 = 1 then (now.getFullYear - 1, 12) else (now.getFullYear, now.getMonth)

/-- The unique-index key of a demand cell. -/
def keyOf (c : HighDemandCell) : String × Int × Int × Option Int × Int :=
  (c.doctorName, c.year, c.month, c.dayOfWeek, c.hour)

/-! ## Concrete fixtures used by witnesses and counterexamples -/

/-- A November 2025 morning slot (instant, year, 0-indexed month, weekday,
hour). -/
def exDate1 : DateTime :=
  { epochMs := 1764576000000, getFullYear := 2025, getMonth := 10, getDay := 1, getHours := 9 }

/-- A user with one attended visit. -/
def exUserOmar : User :=
  { userName := "omar", displayName := none, phone := none, telegramChatId := none,
    score := 10, attendedCount := 1, missedCount := 0, attendanceRate := 100,
    category := "Good" }

/-- An appointment already in the terminal state `attended`. -/
def exApptAttended : Appointment :=
  { id := 1, doctorName := "Dr. Sara", date := exDate1, status := .attended,
    userName := some "omar", reminders := [] }

/-- State with a terminal appointment and its user. -/
def exStateTerminal : SystemState :=
  { users := [exUserOmar], appointments := [exApptAttended], demand := [],
    messages := [] }

/-- The user of the category-transition scenario: 2 attended, 1 missed. -/
def exUser21 : User :=
  { userName := "sara", displayName := none, phone := none, telegramChatId := none,
    score := 15, attendedCount := 2, missedCount := 1, attendanceRate := 66,
    category := "Good" }

/-- Slot for the instant catch-up booking scenario (appointment in 10 hours:
the 24-hour lead is past, the 2-hour lead is future). -/
def exDateC3 : DateTime :=
  { epochMs := 200000000, getFullYear := 1970, getMonth := 0, getDay := 5, getHours := 11 }

/-- The available appointment of the booking scenario. -/
def exApptC3 : Appointment :=
  { id := 5, doctorName := "Dr. Sara", date := exDateC3, status := .available,
    userName := none, reminders := [] }

/-- State for the booking scenario: a `Good` user, an available slot, one
`default nudge` message, no demand data. -/
def exStateC3 : SystemState :=
  { users := [exUserOmar], appointments := [exApptC3], demand := [],
    messages := [{ category := "default nudge", text := "see you name" }] }

/-- The appointment the booking scenario persists: booked for omar, one `sent`
row at booking time (the past 24-hour lead), one `scheduled` row at the
2-hour lead. -/
def exBookedC3 : Appointment :=
  { id := 5, doctorName := "Dr. Sara", date := exDateC3, status := .booked,
    userName := some "omar",
    reminders :=
      [{ messageType := "default nudge", sendTime := 164000000, status := .sent },
       { messageType := "default nudge", sendTime := 192800000, status := .scheduled }] }

/-- Demand cells with totals `[1,2,3,4,8]` for (Dr.K, 2025, 11). -/
def exDemandK : List HighDemandCell :=
  [{ doctorName := "Dr.K", year := 2025, month := 11, dayOfWeek := some 0, hour := 9,
     totalAppointments := 1, highDemandThreshold := 3, source := .auto },
   { doctorName := "Dr.K", year := 2025, month := 11, dayOfWeek := some 1, hour := 10,
     totalAppointments := 2, highDemandThreshold := 3, source := .auto },
   { doctorName := "Dr.K", year := 2025, month := 11, dayOfWeek := some 2, hour := 11,
     totalAppointments := 3, highDemandThreshold := 3, source := .auto },
   { doctorName := "Dr.K", year := 2025, month := 11, dayOfWeek := some 3, hour := 12,
     totalAppointments := 4, highDemandThreshold := 3, source := .auto },
   { doctorName := "Dr.K", year := 2025, month := 11, dayOfWeek := some 4, hour := 13,
     totalAppointments := 8, highDemandThreshold := 3, source := .auto }]

/-- An admin baseline cell for Dr.K, Friday-independent, 14:00, with no
learned attendance yet: high-demand purely through `source = admin`. -/
def exAdminCell : HighDemandCell :=
  { doctorName := "Dr.K", year := 2025, month := 11, dayOfWeek := none, hour := 14,
    totalAppointments := 0, highDemandThreshold := 3, source := .admin }

/-- A Friday 14:00 slot in the admin cell's month. -/
def exDateFri : DateTime :=
  { epochMs := 5000000, getFullYear := 2025, getMonth := 10, getDay := 5, getHours := 14 }

/-- The available Friday appointment for the late-release scenario. -/
def exApptFri : Appointment :=
  { id := 7, doctorName := "Dr.K", date := exDateFri, status := .available,
    userName := none, reminders := [] }

/-- An `At-Risk` user. -/
def exUserRisky : User :=
  { userName := "risky", displayName := none, phone := none, telegramChatId := none,
    score := 0, attendedCount := 1, missedCount := 4, attendanceRate := 20,
    category := "At-Risk" }

/-- State for the late-release scenario: the admin cell is the only demand
data and the Friday slot starts inside the two-hour window of `now = 0`. -/
def exStateC7 : SystemState :=
  { users := [exUserRisky], appointments := [exApptFri], demand := [exAdminCell],
    messages := [] }

/-- An auto cell whose learned total is at its threshold (genuinely released
by the hourly task). -/
def exAutoCell : HighDemandCell :=
  { doctorName := "Dr.K", year := 2025, month := 11, dayOfWeek := some 5, hour := 14,
    totalAppointments := 5, highDemandThreshold := 3, source := .auto }

/-- December 2025 demand cells for the monthly-recalculation scenario. -/
def exDemandDec : List HighDemandCell :=
  [{ doctorName := "Dr.K", year := 2025, month := 12, dayOfWeek := some 0, hour := 9,
     totalAppointments := 1, highDemandThreshold := 3, source := .auto },
   { doctorName := "Dr.K", year := 2025, month := 12, dayOfWeek := some 1, hour := 10,
     totalAppointments := 2, highDemandThreshold := 3, source := .auto },
   { doctorName := "Dr.K", year := 2025, month := 12, dayOfWeek := some 2, hour := 11,
     totalAppointments := 9, highDemandThreshold := 3, source := .auto }]

/-- The instant at which the monthly job fires after December 2025:
January 1st 2026, 02:00 (`getMonth() = 0`). -/
def exJanFirst2026 : DateTime :=
  { epochMs := 1767229200000, getFullYear := 2026, getMonth := 0, getDay := 4, getHours := 2 }

/-- A one-message pool. -/
def exMsgHi : Message := { category := "default nudge", text := "hi name" }

/-- A booked appointment whose `userName` matches no registered user. -/
def exApptOrphan : Appointment :=
  { id := 9, doctorName := "Dr. Sara", date := exDate1, status := .booked,
    userName := some "ghost", reminders := [] }

/-- State for the non-atomic 404 scenario. -/
def exStateOrphan : SystemState :=
  { users := [exUserOmar], appointments := [exApptOrphan], demand := [],
    messages := [] }

/-! ## Theorems -/

theorem reclassify_attendedCount (v : User) :
    (reclassify v).attendedCount = v.attendedCount := by
  unfold reclassify
  dsimp only
  repeat' split
  all_goals rfl

theorem reclassify_missedCount (v : User) :
    (reclassify v).missedCount = v.missedCount := by
  unfold reclassify
  dsimp only
  repeat' split
  all_goals rfl

theorem applyDeltas_category (u : User) (s : AppointmentStatus) :
    (applyDeltas u s).category = u.category := by
  unfold applyDeltas
  repeat' split
  all_goals rfl

theorem reclassify_category (v : User) :
    (reclassify v).category =
      if 3 ≤ v.attendedCount + v.missedCount then
        (if 80 ≤ 100 * (v.attendedCount : ℚ) / ((v.attendedCount + v.missedCount : ℕ) : ℚ)
          then "Very Good"
         else if 60 ≤ 100 * (v.attendedCount : ℚ) / ((v.attendedCount + v.missedCount : ℕ) : ℚ)
          then "Good"
         else "At-Risk")
      else v.category := by
  unfold reclassify
  dsimp only
  by_cases h3 : 3 ≤ v.attendedCount + v.missedCount
  · have hpos : 0 < v.attendedCount + v.missedCount := by omega
    have hrate : ((v.attendedCount : ℚ) / ((v.attendedCount + v.missedCount : ℕ) : ℚ)) * 100 =
        100 * (v.attendedCount : ℚ) / ((v.attendedCount + v.missedCount : ℕ) : ℚ) := by
      ring
    rw [if_pos hpos, if_pos h3, if_pos h3, hrate]
    by_cases h80 : 80 ≤ 100 * (v.attendedCount : ℚ) / ((v.attendedCount + v.missedCount : ℕ) : ℚ)
    · rw [if_pos h80, if_pos h80]
    · rw [if_neg h80, if_neg h80]
      by_cases h60 : 60 ≤ 100 * (v.attendedCount : ℚ) / ((v.attendedCount + v.missedCount : ℕ) : ℚ)
      · rw [if_pos h60, if_pos h60]
      · rw [if_neg h60, if_neg h60]
  · rw [if_neg h3, if_neg h3]

/-- C4: after every attendance update, with `total` the post-update count of
attendance events, a user with `total < 3` keeps the previous category;
otherwise, with `rate = 100·attended/total`, the category is `Very Good` iff
`rate ≥ 80`, `Good` iff `60 ≤ rate < 80` and `At-Risk` iff `rate < 60`. -/
theorem categoryRule_correct (u : User) (s : AppointmentStatus) :
    ((applyAttendance u s).attendedCount + (applyAttendance u s).missedCount < 3 →
      (applyAttendance u s).category = u.category) ∧
    (3 ≤ (applyAttendance u s).attendedCount + (applyAttendance u s).missedCount →
      (((applyAttendance u s).category = "Very Good" ↔
          80 ≤ 100 * ((applyAttendance u s).attendedCount : ℚ) /
            (((applyAttendance u s).attendedCount + (applyAttendance u s).missedCount : ℕ) : ℚ)) ∧
       ((applyAttendance u s).category = "Good" ↔
          (60 ≤ 100 * ((applyAttendance u s).attendedCount : ℚ) /
            (((applyAttendance u s).attendedCount + (applyAttendance u s).missedCount : ℕ) : ℚ) ∧
           100 * ((applyAttendance u s).attendedCount : ℚ) /
            (((applyAttendance u s).attendedCount + (applyAttendance u s).missedCount : ℕ) : ℚ) < 80)) ∧
       ((applyAttendance u s).category = "At-Risk" ↔
          100 * ((applyAttendance u s).attendedCount : ℚ) /
            (((applyAttendance u s).attendedCount + (applyAttendance u s).missedCount : ℕ) : ℚ) < 60))) := by
  have hA : applyAttendance u s = reclassify (applyDeltas u s) := rfl
  rw [hA, reclassify_attendedCount, reclassify_missedCount, reclassify_category,
    applyDeltas_category]
  simp only [Nat.cast_add]
  by_cases h3 : 3 ≤ (applyDeltas u s).attendedCount + (applyDeltas u s).missedCount
  · rw [if_pos h3]
    refine ⟨fun hlt => absurd h3 (by omega), fun _ => ?_⟩
    by_cases h80 : 80 ≤ 100 * ((applyDeltas u s).attendedCount : ℚ) /
        (((applyDeltas u s).attendedCount : ℚ) + ((applyDeltas u s).missedCount : ℚ))
    · rw [if_pos h80]
      refine ⟨⟨fun _ => h80, fun _ => rfl⟩, ?_, ?_⟩
      · exact ⟨fun h => absurd h (by decide),
          fun h => absurd h80 (not_le.mpr h.2)⟩
      · exact ⟨fun h => absurd h (by decide),
          fun h => absurd h (not_lt.mpr (le_trans (by norm_num) h80))⟩
    · rw [if_neg h80]
      by_cases h60 : 60 ≤ 100 * ((applyDeltas u s).attendedCount : ℚ) /
          (((applyDeltas u s).attendedCount : ℚ) + ((applyDeltas u s).missedCount : ℚ))
      · rw [if_pos h60]
        refine ⟨?_, ?_, ?_⟩
        · exact ⟨fun h => absurd h (by decide), fun h => absurd h h80⟩
        · exact ⟨fun _ => ⟨h60, not_le.mp h80⟩, fun _ => rfl⟩
        · exact ⟨fun h => absurd h (by decide),
            fun h => absurd h (not_lt.mpr h60)⟩
      · rw [if_neg h60]
        refine ⟨?_, ?_, ?_⟩
        · exact ⟨fun h => absurd h (by decide), fun h => absurd h h80⟩
        · exact ⟨fun h => absurd h (by decide), fun h => absurd h.1 h60⟩
        · exact ⟨fun _ => not_le.mp h60, fun _ => rfl⟩
  · rw [if_neg h3]
    exact ⟨fun _ => rfl, fun h => absurd h h3⟩

/-- Witness for C4, following the claim's scenario: a `Good` user at
`attended = 2, missed = 1` who attends reaches 3/1 (rate 75) and stays
`Good`; attending again reaches 4/1 (rate 80) and becomes `Very Good`. -/
theorem categoryRule_correct_witness :
    (applyAttendance exUser21 .attended).category = "Good" ∧
    (applyAttendance (applyAttendance exUser21 .attended) .attended).category = "Very Good" := by
  have hc1 : (applyAttendance exUser21 .attended).attendedCount = 3 := by
    rw [show applyAttendance exUser21 .attended = reclassify (applyDeltas exUser21 .attended)
      from rfl, reclassify_attendedCount]
    decide
  have hm1 : (applyAttendance exUser21 .attended).missedCount = 1 := by
    rw [show applyAttendance exUser21 .attended = reclassify (applyDeltas exUser21 .attended)
      from rfl, reclassify_missedCount]
    decide
  constructor
  · refine (((categoryRule_correct exUser21 .attended).2 (by rw [hc1, hm1]; omega)).2.1).mpr ?_
    rw [hc1, hm1]
    norm_num
  · refine (((categoryRule_correct (applyAttendance exUser21 .attended) .attended).2 ?_).1).mpr ?_
    · rw [show applyAttendance (applyAttendance exUser21 .attended) .attended =
        reclassify (applyDeltas (applyAttendance exUser21 .attended) .attended) from rfl,
        reclassify_attendedCount, reclassify_missedCount]
      unfold applyDeltas
      simp [hc1, hm1]
    · rw [show applyAttendance (applyAttendance exUser21 .attended) .attended =
        reclassify (applyDeltas (applyAttendance exUser21 .attended) .attended) from rfl,
        reclassify_attendedCount, reclassify_missedCount]
      unfold applyDeltas
      simp [hc1, hm1]
      norm_num

theorem orElse_eq_firstNonNull (a b c d : Option α) :
    (a <|> b <|> c <|> d) = firstNonNull [a, b, c, d] := by
  cases a <;> cases b <;> cases c <;> cases d <;> rfl

/-- C6: the effective-demand lookup returns the first non-null result of
exactly the four queries — current-year `(dayOfWeek, hour)` cell,
previous-year `(dayOfWeek, hour)` cell, current-year admin baseline,
previous-year admin baseline, in that order — and `none` when all four are
absent. -/
theorem effective_first_nonnull (db : List HighDemandCell) (doctorName : String)
    (date : DateTime) :
    getEffectiveHighDemand db doctorName date =
      firstNonNull [currentYearCell db doctorName date,
        previousYearCell db doctorName date,
        currentYearAdminBaseline db doctorName date,
        previousYearAdminBaseline db doctorName date] := by
  show (currentYearCell db doctorName date <|> previousYearCell db doctorName date <|>
    currentYearAdminBaseline db doctorName date <|>
    previousYearAdminBaseline db doctorName date) = _
  exact orElse_eq_firstNonNull _ _ _ _

/-- C2: the booking route answers `AdmissionDenied` (HTTP 403, message naming
the appointment's doctor) exactly when the slot exists and is available, the
user is registered, the user's category is `At-Risk`, and the effective
demand cell (looked up after the month initialization the route performs)
exists and is high-demand; any user whose category is not `At-Risk` is never
denied on demand grounds. -/
theorem admissionDenied_iff (st : SystemState) (appointmentId : Nat) (userName : String)
    (phone : Option String) (now : Int) (doctor : String) :
    (bookAppointment st appointmentId userName phone now).2 =
      BookOutcome.admissionDenied doctor ↔
    (∃ appointment user,
      st.appointments.find? (fun a => a.id == appointmentId) = some appointment ∧
      appointment.doctorName = doctor ∧
      appointment.status = AppointmentStatus.available ∧
      st.users.find? (fun u => u.userName.toLower == userName.toLower) = some user ∧
      user.category = "At-Risk" ∧
      isHighDemandSlot (getEffectiveHighDemand
        (initializeMonthIfNeeded st.demand appointment.doctorName appointment.date)
        appointment.doctorName appointment.date) = true) := by
  unfold bookAppointment
  cases hfa : st.appointments.find? (fun a => a.id == appointmentId) with
  | none => simp [hfa]
  | some appointment =>
    dsimp only
    by_cases hav : appointment.status = AppointmentStatus.available
    · rw [if_neg (by simp [hav])]
      cases hfu : st.users.find? (fun u => u.userName.toLower == userName.toLower) with
      | none => simp [hfu]
      | some user =>
        dsimp only
        by_cases hguard : user.category = "At-Risk" ∧
            isHighDemandSlot (getEffectiveHighDemand
              (initializeMonthIfNeeded st.demand appointment.doctorName appointment.date)
              appointment.doctorName appointment.date) = true
        · rw [if_pos (by simp [hguard.1, hguard.2])]
          constructor
          · intro h
            cases h
            exact ⟨appointment, user, rfl, rfl, hav, rfl, hguard.1, hguard.2⟩
          · rintro ⟨a, u, ha, hdoc, -, -, -, -⟩
            cases ha
            cases hdoc
            rfl
        · rw [if_neg ?_]
          · constructor
            · intro h
              cases h
            · rintro ⟨a, u, ha, hdoc, ha2, hu, hcat, hhd⟩
              cases ha
              cases hu
              exact absurd ⟨hcat, hhd⟩ hguard
          · intro hb
            rw [Bool.and_eq_true, decide_eq_true_eq] at hb
            exact hguard ⟨hb.1, hb.2⟩
    · rw [if_pos (by simp [hav])]
      constructor
      · intro h
        cases h
      · rintro ⟨a, u, ha, -, ha2, -, -, -⟩
        cases ha
        exact absurd ha2 hav

theorem bookReminderStep_foldl_reminders (p : Bool) (mt : String) (T now : Int) :
    ∀ (hs : List Int) (acc : List Reminder × Bool × Nat),
      (hs.foldl (bookReminderStep p mt T now) acc).1 =
        acc.1 ++ hs.map (fun hh =>
          if T - hh * 60 * 60 * 1000 ≤ now then
            { messageType := mt, sendTime := now, status := ReminderStatus.sent }
          else
            { messageType := mt, sendTime := T - hh * 60 * 60 * 1000,
              status := ReminderStatus.scheduled })
  | [], acc => by simp
  | hh :: hs, acc => by
    rw [List.foldl_cons, List.map_cons, bookReminderStep_foldl_reminders p mt T now hs]
    unfold bookReminderStep
    dsimp only
    by_cases hpast : T - hh * 60 * 60 * 1000 ≤ now
    · rw [if_pos hpast, if_pos hpast]
      by_cases hinst : acc.2.1
      · rw [if_pos hinst]
        simp
      · rw [if_neg hinst]
        by_cases hpool : p = true
        · rw [if_pos hpool]
          simp
        · rw [if_neg hpool]
          simp
    · rw [if_neg hpast, if_neg hpast]
      simp

theorem bookReminderStep_measure (p : Bool) (mt : String) (T now : Int)
    (acc : List Reminder × Bool × Nat) (hh : Int) :
    (bookReminderStep p mt T now acc hh).2.2 +
      (if (bookReminderStep p mt T now acc hh).2.1 then 0 else 1) ≤
    acc.2.2 + (if acc.2.1 then 0 else 1) := by
  obtain ⟨rs, flag, d⟩ := acc
  unfold bookReminderStep
  dsimp only
  by_cases hpast : T - hh * 60 * 60 * 1000 ≤ now
  · rw [if_pos hpast]
    cases flag
    · by_cases hpool : p = true
      · simp [hpool]
      · simp [hpool]
    · simp
  · rw [if_neg hpast]

theorem bookReminderStep_foldl_measure (p : Bool) (mt : String) (T now : Int) :
    ∀ (hs : List Int) (acc : List Reminder × Bool × Nat),
      (hs.foldl (bookReminderStep p mt T now) acc).2.2 +
        (if (hs.foldl (bookReminderStep p mt T now) acc).2.1 then 0 else 1) ≤
      acc.2.2 + (if acc.2.1 then 0 else 1)
  | [], acc => le_refl _
  | hh :: hs, acc => by
    rw [List.foldl_cons]
    exact le_trans
      (bookReminderStep_foldl_measure p mt T now hs (bookReminderStep p mt T now acc hh))
      (bookReminderStep_measure p mt T now acc hh)

theorem planReminders_spec (p : Bool) (mt : String) (T now : Int) (hs : List Int) :
    (planReminders p mt T now hs).1 = hs.map (fun hh =>
      if T - hh * 60 * 60 * 1000 ≤ now then
        { messageType := mt, sendTime := now, status := ReminderStatus.sent }
      else
        { messageType := mt, sendTime := T - hh * 60 * 60 * 1000,
          status := ReminderStatus.scheduled }) ∧
    (planReminders p mt T now hs).2 ≤ 1 := by
  unfold planReminders
  constructor
  · rw [bookReminderStep_foldl_reminders]
    simp
  · have h := bookReminderStep_foldl_measure p mt T now hs ([], false, 0)
    simp only [if_neg (by simp : ¬(false = true))] at h
    dsimp only at h ⊢
    split at h <;> omega

/-- C3: every successful booking persists, on the booked appointment, one
reminder row per lead hour of the user's class — `{sendTime = now, sent}` for
each lead already in the past, `{sendTime = apptTime − h·1h, scheduled}` for
each future lead — and attempts at most one synchronous delivery. -/
theorem booking_reminders (st : SystemState) (appointmentId : Nat) (userName : String)
    (phone : Option String) (now : Int) (st1 : SystemState) (appt : Appointment)
    (del : Nat) (user : User)
    (huser : st.users.find? (fun u => u.userName.toLower == userName.toLower) = some user)
    (h : bookAppointment st appointmentId userName phone now = (st1, .booked appt del)) :
    appt.reminders = (reminderHoursFor user.category).map (fun hh =>
      if appt.date.epochMs - hh * 60 * 60 * 1000 ≤ now then
        { messageType := messageTypeFor user.category, sendTime := now,
          status := ReminderStatus.sent }
      else
        { messageType := messageTypeFor user.category,
          sendTime := appt.date.epochMs - hh * 60 * 60 * 1000,
          status := ReminderStatus.scheduled }) ∧
    del ≤ 1 := by
  unfold bookAppointment at h
  cases hfa : st.appointments.find? (fun a => a.id == appointmentId) with
  | none =>
    rw [hfa] at h
    simp at h
  | some appointment =>
    rw [hfa] at h
    dsimp only at h
    by_cases hav : appointment.status = AppointmentStatus.available
    · rw [if_neg (by simp [hav]), huser] at h
      dsimp only at h
      split at h
      · simp at h
      · rw [Prod.mk.injEq, BookOutcome.booked.injEq] at h
        obtain ⟨-, happt, hdel⟩ := h
        subst happt
        subst hdel
        refine ⟨?_, (planReminders_spec _ _ _ _ _).2⟩
        exact (planReminders_spec _ _ _ _ _).1
    · rw [if_pos (by simp [hav])] at h
      simp at h

/-- Witness for C3: booking the slot 10 hours ahead for a `Good` user records
the past 24-hour lead as a `sent` row at booking time and the 2-hour lead as
a `scheduled` row, with exactly one delivery attempt. -/
theorem booking_reminders_witness :
    (exStateC3.users.find? (fun u => u.userName.toLower == "omar".toLower) =
      some exUserOmar) ∧
    ((bookAppointment exStateC3 5 "omar" none 164000000).2 =
      BookOutcome.booked exBookedC3 1) ∧
    exBookedC3.reminders = (reminderHoursFor exUserOmar.category).map (fun hh =>
      if exBookedC3.date.epochMs - hh * 60 * 60 * 1000 ≤ 164000000 then
        { messageType := messageTypeFor exUserOmar.category, sendTime := 164000000,
          status := ReminderStatus.sent }
      else
        { messageType := messageTypeFor exUserOmar.category,
          sendTime := exBookedC3.date.epochMs - hh * 60 * 60 * 1000,
          status := ReminderStatus.scheduled }) ∧
    (1 : Nat) ≤ 1 := by
  have huser : exStateC3.users.find? (fun u => u.userName.toLower == "omar".toLower) =
      some exUserOmar :=
    List.find?_cons_of_pos _ (beq_self_eq_true ("omar".toLower))
  have h2 : (bookAppointment exStateC3 5 "omar" none 164000000).2 =
      BookOutcome.booked exBookedC3 1 := by
    unfold bookAppointment
    rw [show exStateC3.appointments.find? (fun a => a.id == 5) = some exApptC3 from by decide]
    dsimp only
    rw [if_neg (by decide), huser]
    dsimp only
    rw [if_neg (by decide)]
    decide
  have hpair : bookAppointment exStateC3 5 "omar" none 164000000 =
      ((bookAppointment exStateC3 5 "omar" none 164000000).1,
        BookOutcome.booked exBookedC3 1) := by
    rw [← h2]
  have h := booking_reminders exStateC3 5 "omar" none 164000000
    (bookAppointment exStateC3 5 "omar" none 164000000).1 exBookedC3 1 exUserOmar
    huser hpair
  exact ⟨huser, h2, h.1, h.2⟩

theorem find?_updateFirst (p : α → Bool) (f : α → α) :
    ∀ (l : List α) (x : α), l.find? p = some x → p (f x) = true →
      (updateFirst p f l).find? p = some (f x)
  | [], x => by simp
  | y :: l, x => by
    intro h hf
    cases hy : p y with
    | true =>
      rw [List.find?_cons_of_pos _ hy] at h
      injection h with h
      subst h
      unfold updateFirst
      rw [if_pos hy]
      exact List.find?_cons_of_pos _ hf
    | false =>
      rw [List.find?_cons_of_neg _ (by simp [hy])] at h
      unfold updateFirst
      rw [if_neg (by simp [hy]), List.find?_cons_of_neg _ (by simp [hy])]
      exact find?_updateFirst p f l x h hf

/-- C1 counterexample: `updateAppointmentStatus` on an appointment already in
the terminal state `attended` succeeds with a different terminal status and
overwrites the status, and repeating the same terminal status changes the
user (the attended counter climbs from 1 to 2), contradicting both the
`InvalidTransition` failure and the idempotence the claim states. -/
theorem terminal_not_enforced_counterexample :
    exApptAttended.status = AppointmentStatus.attended ∧
    (updateAppointmentStatus exStateTerminal 1 .missed).2.map (fun r => r.1.status) =
      some AppointmentStatus.missed ∧
    (updateAppointmentStatus exStateTerminal 1 .missed).2.isSome = true ∧
    (updateAppointmentStatus exStateTerminal 1 .attended).2.map (fun r => r.2.attendedCount) =
      some 2 ∧
    exUserOmar.attendedCount = 1 := by
  exact ⟨rfl, by decide, by decide, by decide, rfl⟩

/-- C1 amended: `updateAppointmentStatus` never rejects a transition — when
the appointment and the user named on it exist, it overwrites the stored
status with the requested one (terminal states included) and re-applies the
score/counter/category update to the user on every call. -/
theorem setStatus_overwrites (st : SystemState) (appointmentId : Nat)
    (s : AppointmentStatus) (appt : Appointment) (user : User)
    (hfind : st.appointments.find? (fun a => a.id == appointmentId) = some appt)
    (howner : appt.userName.bind
      (fun n => st.users.find? (fun u => u.userName == n)) = some user) :
    (updateAppointmentStatus st appointmentId s).2 =
      some ({ appt with status := s }, applyAttendance user s) ∧
    (updateAppointmentStatus st appointmentId s).1.appointments.find?
      (fun a => a.id == appointmentId) = some { appt with status := s } := by
  unfold updateAppointmentStatus
  rw [hfind]
  dsimp only
  rw [howner]
  dsimp only
  have hp := List.find?_some hfind
  exact ⟨rfl, find?_updateFirst (fun a => a.id == appointmentId)
    (fun a => { a with status := s }) st.appointments appt hfind hp⟩

/-- Witness for the amended C1: marking the already-`attended` appointment
`missed` succeeds and flips the stored status. -/
theorem setStatus_overwrites_witness :
    (exStateTerminal.appointments.find? (fun a => a.id == 1) = some exApptAttended) ∧
    (exApptAttended.userName.bind
      (fun n => exStateTerminal.users.find? (fun u => u.userName == n)) = some exUserOmar) ∧
    (updateAppointmentStatus exStateTerminal 1 .missed).2 =
      some ({ exApptAttended with status := .missed }, applyAttendance exUserOmar .missed) ∧
    (updateAppointmentStatus exStateTerminal 1 .missed).1.appointments.find?
      (fun a => a.id == 1) = some { exApptAttended with status := .missed } := by
  have h := setStatus_overwrites exStateTerminal 1 .missed exApptAttended exUserOmar
    (by decide) (by decide)
  exact ⟨by decide, by decide, h.1, h.2⟩

/-- C10: when the appointment exists but its `userName` matches no registered
user, the status route answers 404 — yet the appointment's status has
already been overwritten with the requested value (the write precedes the
user lookup), so the operation is not atomic on this error path. -/
theorem statusRoute_nonatomic (st : SystemState) (appointmentId : Nat)
    (s : AppointmentStatus) (appt : Appointment)
    (hfind : st.appointments.find? (fun a => a.id == appointmentId) = some appt)
    (howner : appt.userName.bind
      (fun n => st.users.find? (fun u => u.userName == n)) = none) :
    (postAppointmentStatus st appointmentId s).2 = 404 ∧
    (postAppointmentStatus st appointmentId s).1.appointments.find?
      (fun a => a.id == appointmentId) = some { appt with status := s } := by
  unfold postAppointmentStatus updateAppointmentStatus
  rw [hfind]
  dsimp only
  rw [howner]
  dsimp only
  have hp := List.find?_some hfind
  exact ⟨rfl, find?_updateFirst (fun a => a.id == appointmentId)
    (fun a => { a with status := s }) st.appointments appt hfind hp⟩

/-- Witness for C10: the orphaned booked appointment (user `ghost` is not
registered) yields 404 while its status is already `missed`. -/
theorem statusRoute_nonatomic_witness :
    (exStateOrphan.appointments.find? (fun a => a.id == 9) = some exApptOrphan) ∧
    (exApptOrphan.userName.bind
      (fun n => exStateOrphan.users.find? (fun u => u.userName == n)) = none) ∧
    (postAppointmentStatus exStateOrphan 9 .missed).2 = 404 ∧
    (postAppointmentStatus exStateOrphan 9 .missed).1.appointments.find?
      (fun a => a.id == 9) = some { exApptOrphan with status := .missed } := by
  have h := statusRoute_nonatomic exStateOrphan 9 .missed exApptOrphan
    (by decide) (by decide)
  exact ⟨by decide, by decide, h.1, h.2⟩

/-- C9 counterexample: with a one-message pool whose only text is already in
the used set, `pickUniqueMessage` does not reset the set and reuse a
message — it crashes (indexing `undefined`), modelled as `none`. -/
theorem pickUnique_exhausted_counterexample :
    pickUniqueMessage [exMsgHi] [exMsgHi.text] 0 = none := by
  decide

/-- C9 amended: whenever the used set already covers the whole pool, the
filtered pool is empty and `pickUniqueMessage` throws a `TypeError`
(modelled as `none`); no reset of the used set and no reuse happens. -/
theorem pickUnique_exhausted_crashes (messages : List Message) (used : List String)
    (rand : Nat) (h : ∀ m ∈ messages, used.contains m.text = true) :
    pickUniqueMessage messages used rand = none := by
  unfold pickUniqueMessage
  have hfil : messages.filter (fun m => !used.contains m.text) = [] := by
    rw [List.filter_eq_nil_iff]
    intro m hm
    simpa using h m hm
  rw [hfil]
  rfl

/-- Witness for the amended C9. -/
theorem pickUnique_exhausted_crashes_witness :
    (∀ m ∈ [exMsgHi], ([exMsgHi.text].contains m.text) = true) ∧
    pickUniqueMessage [exMsgHi] [exMsgHi.text] 5 = none :=
  ⟨by decide, pickUnique_exhausted_crashes _ _ 5 (by decide)⟩

theorem matchesKey_iff_keyOf (x c : HighDemandCell) :
    matchesKey x c.doctorName c.year c.month c.dayOfWeek c.hour = true ↔
      keyOf x = keyOf c := by
  unfold matchesKey keyOf
  simp only [Bool.and_eq_true, beq_iff_eq, Prod.mk.injEq]
  tauto

theorem updateFirst_append (p : α → Bool) (f : α → α) :
    ∀ (l₁ : List α) (c : α) (l₂ : List α),
      (∀ x ∈ l₁, p x = false) → p c = true →
      updateFirst p f (l₁ ++ c :: l₂) = l₁ ++ f c :: l₂
  | [], c, l₂ => by
    intro _ hc
    show updateFirst p f (c :: l₂) = f c :: l₂
    unfold updateFirst
    rw [if_pos hc]
  | y :: l₁, c, l₂ => by
    intro h1 hc
    rw [List.cons_append]
    unfold updateFirst
    rw [if_neg (by simp [h1 y (List.mem_cons_self _ _)]),
      updateFirst_append p f l₁ c l₂ (fun x hx => h1 x (List.mem_cons_of_mem _ hx)) hc,
      List.cons_append]

theorem effective_mem (db : List HighDemandCell) (dn : String) (t : DateTime)
    (c : HighDemandCell) (h : getEffectiveHighDemand db dn t = some c) : c ∈ db := by
  unfold getEffectiveHighDemand at h
  dsimp only at h
  cases h1 : db.find? (fun x =>
      matchesKey x dn t.getFullYear (t.getMonth + 1) (some t.getDay) t.getHours) with
  | some x =>
    rw [h1, Option.some_orElse] at h
    injection h with h
    subst h
    exact List.mem_of_find?_eq_some h1
  | none =>
    rw [h1, Option.none_orElse] at h
    cases h2 : db.find? (fun x =>
        matchesKey x dn (t.getFullYear - 1) (t.getMonth + 1) (some t.getDay) t.getHours) with
    | some x =>
      rw [h2, Option.some_orElse] at h
      injection h with h
      subst h
      exact List.mem_of_find?_eq_some h2
    | none =>
      rw [h2, Option.none_orElse] at h
      cases h3 : db.find? (fun x =>
          matchesKey x dn t.getFullYear (t.getMonth + 1) none t.getHours &&
            x.source == CellSource.admin) with
      | some x =>
        rw [h3, Option.some_orElse] at h
        injection h with h
        subst h
        exact List.mem_of_find?_eq_some h3
      | none =>
        rw [h3, Option.none_orElse] at h
        exact List.mem_of_find?_eq_some h

/-- C7 amended: the hourly late-release step frees exactly the effective
cells whose learned total has reached their threshold — the released cell's
threshold becomes `Number.MAX_SAFE_INTEGER`, the code's finite stand-in for
`+∞` — while an effective cell below its threshold is left untouched even
when it is high-demand through `source = admin`, and such an admin cell
still gates `At-Risk` bookings afterwards. -/
theorem lateRelease_amended (db : List HighDemandCell) (a : Appointment)
    (c : HighDemandCell)
    (hkey : db.Pairwise (fun x y => keyOf x ≠ keyOf y))
    (heff : getEffectiveHighDemand db a.doctorName a.date = some c) :
    (c.highDemandThreshold ≤ (c.totalAppointments : ℚ) →
      ∀ x ∈ lateReleaseStep db a, keyOf x = keyOf c →
        x.highDemandThreshold = maxSafeInteger) ∧
    ((c.totalAppointments : ℚ) < c.highDemandThreshold →
      lateReleaseStep db a = db ∧
      (c.source = CellSource.admin →
        isHighDemandSlot (getEffectiveHighDemand (lateReleaseStep db a)
          a.doctorName a.date) = true)) := by
  have hstep : lateReleaseStep db a =
      if c.highDemandThreshold ≤ (c.totalAppointments : ℚ) then
        updateFirst (fun x => matchesKey x c.doctorName c.year c.month c.dayOfWeek c.hour)
          (fun x => { x with highDemandThreshold := maxSafeInteger }) db
      else db := by
    unfold lateReleaseStep
    rw [heff]
  constructor
  · intro hrel x hx hkx
    rw [hstep, if_pos hrel] at hx
    obtain ⟨l₁, l₂, rfl⟩ := List.append_of_mem (effective_mem db a.doctorName a.date c heff)
    rw [List.pairwise_append] at hkey
    obtain ⟨-, hp2, hcross⟩ := hkey
    have hc2 := (List.pairwise_cons.mp hp2).1
    have hl₁ : ∀ y ∈ l₁,
        (fun x => matchesKey x c.doctorName c.year c.month c.dayOfWeek c.hour) y = false := by
      intro y hy
      rw [Bool.eq_false_iff]
      intro hpy
      exact hcross y hy c (List.mem_cons_self _ _) ((matchesKey_iff_keyOf y c).mp hpy)
    rw [updateFirst_append _ _ l₁ c l₂ hl₁ ((matchesKey_iff_keyOf c c).mpr rfl)] at hx
    rcases List.mem_append.mp hx with hx1 | hx2
    · exact absurd hkx (hcross x hx1 c (List.mem_cons_self _ _))
    · rcases List.mem_cons.mp hx2 with rfl | hx3
      · rfl
      · exact absurd hkx.symm (hc2 x hx3)
  · intro hlt
    have hne : ¬ c.highDemandThreshold ≤ (c.totalAppointments : ℚ) := not_le.mpr hlt
    rw [hstep, if_neg hne]
    refine ⟨rfl, fun hadmin => ?_⟩
    rw [heff]
    unfold isHighDemandSlot
    simp [hadmin]

/-- C7 counterexample: the Friday slot's effective cell is high-demand
(`source = admin`), the hourly task starting at `now = 0` covers the slot,
yet the cell's threshold stays at 3 — it is never set to the release value —
and the subsequent `At-Risk` booking is still denied. -/
theorem lateRelease_admin_counterexample :
    isHighDemandSlot (getEffectiveHighDemand exStateC7.demand "Dr.K" exDateFri) = true ∧
    (hourlyMaintenanceJob exStateC7 0).demand = exStateC7.demand ∧
    exAdminCell.highDemandThreshold = 3 ∧
    (bookAppointment (hourlyMaintenanceJob exStateC7 0) 7 "risky" none 900000).2 =
      BookOutcome.admissionDenied "Dr.K" := by
  refine ⟨by decide, by decide, rfl, ?_⟩
  have hu : (hourlyMaintenanceJob exStateC7 0).users.find?
      (fun u => u.userName.toLower == "risky".toLower) = some exUserRisky :=
    List.find?_cons_of_pos _ (beq_self_eq_true ("risky".toLower))
  unfold bookAppointment
  rw [show (hourlyMaintenanceJob exStateC7 0).appointments.find? (fun a => a.id == 7) =
    some exApptFri from by decide]
  dsimp only
  rw [if_neg (by decide), hu]
  dsimp only
  rw [if_pos (by decide)]
  rfl

/-- Witness for the amended C7: an auto cell with total 5 and threshold 3 is
released — its threshold becomes `Number.MAX_SAFE_INTEGER`. -/
theorem lateRelease_amended_witness :
    ([exAutoCell].Pairwise (fun x y => keyOf x ≠ keyOf y)) ∧
    (getEffectiveHighDemand [exAutoCell] exApptFri.doctorName exApptFri.date =
      some exAutoCell) ∧
    exAutoCell.highDemandThreshold ≤ (exAutoCell.totalAppointments : ℚ) ∧
    ({ exAutoCell with highDemandThreshold := maxSafeInteger } : HighDemandCell) ∈
      lateReleaseStep [exAutoCell] exApptFri ∧
    ({ exAutoCell with highDemandThreshold := maxSafeInteger } :
      HighDemandCell).highDemandThreshold = maxSafeInteger := by
  refine ⟨by decide, by decide, by decide, by decide, ?_⟩
  exact (lateRelease_amended [exAutoCell] exApptFri exAutoCell (by decide) (by decide)).1
    (by decide) _ (by decide) (by decide)

/-- C8 at the failing input: fired on January 1st 2026 at 02:00 the monthly
job passes `(year, month) = (2026, 0)` — `now.getMonth()`, the zero-indexed
current month, with no year adjustment — which matches no stored cell
(months are 1–12), so the run is a no-op; the just-ended calendar month is
`(2025, 12)`, whose cells exist and whose recalculation would have changed
the thresholds. -/
theorem monthlyRecalc_january_noop :
    monthlyRecalcJob exDemandDec exJanFirst2026 = exDemandDec ∧
    justEndedMonth exJanFirst2026 = (2025, 12) ∧
    (exJanFirst2026.getFullYear, exJanFirst2026.getMonth) ≠ ((2025 : Int), (12 : Int)) ∧
    exDemandDec.filter (fun c => inMonth c "Dr.K" 2026 0) = [] ∧
    exDemandDec.filter (fun c => inMonth c "Dr.K" 2025 12) ≠ [] ∧
    recalculateDynamicThreshold exDemandDec "Dr.K" 2025 12 ≠ exDemandDec := by
  refine ⟨by decide, by decide, by decide, by decide, by decide, ?_⟩
  norm_num [recalculateDynamicThreshold, exDemandDec, inMonth, List.insertionSort,
    List.orderedInsert]

theorem orderedInsert_map_total (a : HighDemandCell) :
    ∀ (l : List HighDemandCell),
      (List.orderedInsert (fun x y => y.totalAppointments ≤ x.totalAppointments) a l).map
        (fun c => c.totalAppointments) =
      List.orderedInsert (fun x y => y ≤ x) a.totalAppointments
        (l.map (fun c => c.totalAppointments))
  | [] => rfl
  | b :: l => by
    unfold List.orderedInsert
    simp only [List.map_cons]
    by_cases hb : b.totalAppointments ≤ a.totalAppointments
    · rw [if_pos hb, if_pos hb]
      simp
    · rw [if_neg hb, if_neg hb]
      simp only [List.map_cons]
      rw [orderedInsert_map_total a l]

theorem insertionSort_map_total :
    ∀ (l : List HighDemandCell),
      (l.insertionSort (fun x y => y.totalAppointments ≤ x.totalAppointments)).map
        (fun c => c.totalAppointments) =
      (l.map (fun c => c.totalAppointments)).insertionSort (fun x y => y ≤ x)
  | [] => rfl
  | a :: l => by
    simp only [List.map_cons, List.insertionSort]
    rw [orderedInsert_map_total, insertionSort_map_total l]

theorem adaptiveThreshold_nonneg_avg (F : List HighDemandCell) :
    0 ≤ ((F.map (fun h => (h.totalAppointments : ℚ))).sum / F.length) * (6 / 5) := by
  apply mul_nonneg
  · apply div_nonneg
    · apply List.sum_nonneg
      intro x hx
      obtain ⟨c, -, rfl⟩ := List.mem_map.mp hx
      exact Nat.cast_nonneg _
    · exact Nat.cast_nonneg _
  · norm_num

theorem adaptiveThreshold_eq_light (F : List HighDemandCell) (h3 : F.length < 3) :
    adaptiveThreshold (F.map (fun c => c.totalAppointments)) =
      ((F.map (fun h => (h.totalAppointments : ℚ))).sum / F.length) * (11 / 10) := by
  unfold adaptiveThreshold
  dsimp only
  rw [List.length_map, if_pos h3, List.map_map]
  rfl

theorem adaptiveThreshold_eq_full (F : List HighDemandCell) (h3 : ¬ F.length < 3) :
    adaptiveThreshold (F.map (fun c => c.totalAppointments)) =
      max (((F.map (fun h => (h.totalAppointments : ℚ))).sum / F.length) * (6 / 5))
        (match (F.insertionSort
            (fun a b => b.totalAppointments ≤ a.totalAppointments)).get? (F.length / 4) with
         | some c =>
           if c.totalAppointments = 0 then
             ((F.map (fun h => (h.totalAppointments : ℚ))).sum / F.length) * (6 / 5)
           else (c.totalAppointments : ℚ)
         | none =>
           ((F.map (fun h => (h.totalAppointments : ℚ))).sum / F.length) * (6 / 5)) := by
  unfold adaptiveThreshold
  dsimp only
  rw [List.length_map, if_neg h3, List.map_map,
    ← insertionSort_map_total, List.get?_map]
  simp only [Function.comp_def]
  cases hs : (F.insertionSort
      (fun a b => b.totalAppointments ≤ a.totalAppointments)).get? (F.length / 4) with
  | none =>
    dsimp only
    rw [Option.map_none', Option.getD_none, Nat.cast_zero,
      max_eq_left (adaptiveThreshold_nonneg_avg F), max_self]
  | some cell =>
    dsimp only
    rw [Option.map_some', Option.getD_some]
    by_cases h0 : cell.totalAppointments = 0
    · rw [h0, if_pos rfl, Nat.cast_zero,
        max_eq_left (adaptiveThreshold_nonneg_avg F), max_self]
    · rw [if_neg h0]

/-- C5: the monthly threshold recalculation rewrites exactly the cells of the
(doctor, year, month) group: every matching cell's threshold becomes
`mean·1.1` when the group has fewer than three cells and otherwise the larger
of `mean·1.2` and the total at rank `⌊n·0.25⌋` of the descending order, while
non-matching cells — and the whole database when the group is empty — are
unchanged; on totals `[1,2,3,4,8]` every threshold becomes `4.32 = 108/25`. -/
theorem recalc_matches_claim :
    (∀ (db : List HighDemandCell) (doctorName : String) (year month : Int),
      recalculateDynamicThreshold db doctorName year month =
        db.map (fun c =>
          if inMonth c doctorName year month then
            { c with highDemandThreshold :=
                adaptiveThreshold ((db.filter
                  (fun cf => inMonth cf doctorName year month)).map
                  (fun cf => cf.totalAppointments)) }
          else c)) ∧
    (recalculateDynamicThreshold exDemandK "Dr.K" 2025 11).map
      (fun c => c.highDemandThreshold) =
      [108 / 25, 108 / 25, 108 / 25, 108 / 25, 108 / 25] := by
  have huniv : ∀ (db : List HighDemandCell) (doctorName : String) (year month : Int),
      recalculateDynamicThreshold db doctorName year month =
        db.map (fun c =>
          if inMonth c doctorName year month then
            { c with highDemandThreshold :=
                adaptiveThreshold ((db.filter
                  (fun cf => inMonth cf doctorName year month)).map
                  (fun cf => cf.totalAppointments)) }
          else c) := by
    intro db dn y m
    unfold recalculateDynamicThreshold
    dsimp only
    by_cases h0 : (db.filter (fun c => inMonth c dn y m)).length = 0
    · rw [if_pos h0]
      have hnil := List.length_eq_zero.mp h0
      have hall : ∀ c ∈ db,
          (if inMonth c dn y m then
            { c with highDemandThreshold :=
                adaptiveThreshold ((db.filter (fun cf => inMonth cf dn y m)).map
                  (fun cf => cf.totalAppointments)) }
          else c) = c := by
        intro c hc
        have hP : ¬ inMonth c dn y m = true := by
          intro hP
          have hmem : c ∈ db.filter (fun cf => inMonth cf dn y m) :=
            List.mem_filter.mpr ⟨hc, hP⟩
          rw [hnil] at hmem
          exact absurd hmem (List.not_mem_nil c)
        rw [if_neg hP]
      rw [List.map_congr_left hall, List.map_id']
    · rw [if_neg h0]
      by_cases h3 : (db.filter (fun c => inMonth c dn y m)).length < 3
      · rw [if_pos h3]
        apply List.map_congr_left
        intro c hc
        by_cases hP : inMonth c dn y m
        · rw [if_pos hP, if_pos hP, adaptiveThreshold_eq_light _ h3]
        · rw [if_neg hP, if_neg hP]
      · rw [if_neg h3]
        apply List.map_congr_left
        intro c hc
        by_cases hP : inMonth c dn y m
        · rw [if_pos hP, if_pos hP, adaptiveThreshold_eq_full _ h3]
        · rw [if_neg hP, if_neg hP]
  refine ⟨huniv, ?_⟩
  rw [huniv]
  norm_num [exDemandK, inMonth, adaptiveThreshold, List.insertionSort, List.orderedInsert]

end AppointmentSystem
